import Mathlib

/-!
Verification model of `src/download_wallpaper.py`.

The file under verification downloads an image, and `process_image`
(lines 225-345) scales and crops it for two stacked screens; `main`
(lines 413-502) glues the stages together.  This development gives a
shallow embedding of `process_image` and of the fragment of `main`
that consumes its result (lines 474-491).

Modelling conventions:
* Pixels are abstract RGB triples; decoded images are a pair of integer
  dimensions plus a total pixel function (`PImage`).
* The colour normalisation of lines 256-277 preserves the image size and
  touches only pixel values, which no claim constrains; the model takes
  the already-normalised decoded image as input.
* PIL `Image.resize` computes resampled pixel values through a fixed
  deterministic kernel (LANCZOS); the model abstracts it as an arbitrary
  but fixed function parameter `K`.  Pillow raises for a negative target
  size and accepts size zero.
* PIL `Image.crop` never fails on boxes that merely exceed the image
  bounds: it pads the missing region with black pixels.  It raises only
  when `right < left` or `lower < upper`.
* Saving a JPEG fails for an empty (zero-sized) image and succeeds
  otherwise; the encoded bytes are not modelled (encoding preserves the
  pixel dimensions, which is all the claims use).
* Python's float arithmetic is binary64.  The embedding is parametric in
  a rounding function `fl : ℚ → ℚ` applied at every float operation of
  lines 289-296: `fl := id` is the exact-real idealisation, and
  `fl := float64Round` (defined below) is round-to-nearest-even binary64.
  Python divides machine-size integers to a correctly rounded float and
  `int()` truncates toward zero, as modelled.  (Conversion of an integer
  operand above 2^53 to float, and overflow to infinity, are outside the
  ranges exercised here and are not modelled.)
* Any exception inside `process_image` is caught at line 343 and turned
  into the failure result `(None, None)`; the model returns an
  `Option`, with `none` for that failure outcome.
-/

/-- An RGB pixel value. -/
abbrev Pix := ℕ × ℕ × ℕ

/-- The pixel value PIL uses to pad crop regions that lie outside the
source image. -/
def blackPix : Pix := (0, 0, 0)

/-- A decoded raster image: integer dimensions plus a total pixel map. -/
structure PImage where
  width : ℤ
  height : ℤ
  pixel : ℤ → ℤ → Pix

/-- Abstract resampling kernel: source image, target width and height,
then coordinates.  Models the fixed deterministic LANCZOS filter of
line 300. -/
abbrev ResampleKernel := PImage → ℤ → ℤ → ℤ → ℤ → Pix

/-- Content of a PIL crop: dimensions `(r - l, b - t)`; pixels inside the
source image are copied, pixels outside are black. -/
def crop_total (img : PImage) (l t r b : ℤ) : PImage :=
  ⟨r - l, b - t, fun x y =>
    if 0 ≤ l + x ∧ l + x < img.width ∧ 0 ≤ t + y ∧ t + y < img.height then
      img.pixel (l + x) (t + y)
    else blackPix⟩

/-- PIL `Image.crop` on a `(left, top, right, bottom)` box: raises only
when `right < left` or `bottom < top`; out-of-bounds regions are padded
with black, never rejected. -/
def crop (img : PImage) (box : ℤ × ℤ × ℤ × ℤ) : Option PImage :=
  match box with
  | (l, t, r, b) => if r < l ∨ b < t then none else some (crop_total img l t r b)

/-- PIL `Image.resize`: raises for a negative target size, otherwise
returns an image of exactly the requested dimensions. -/
def resize (K : ResampleKernel) (img : PImage) (w h : ℤ) : Option PImage :=
  if w < 0 ∨ h < 0 then none else some ⟨w, h, K img w h⟩

/-- Saving a crop as JPEG (lines 335-336): fails for an empty image,
succeeds otherwise. -/
def save_jpeg (img : PImage) : Option Unit :=
  if img.width ≤ 0 ∨ img.height ≤ 0 then none else some ()

/-! ### Binary64 rounding

Executable round-to-nearest-ties-to-even double-precision rounding of a
rational, used to model Python float arithmetic exactly where the
claims depend on it. -/

/-- Two to an integer power, as a rational. -/
def qpow2 (e : ℤ) : ℚ :=
  if 0 ≤ e then ((2 ^ e.toNat : ℕ) : ℚ) else 1 / ((2 ^ (-e).toNat : ℕ) : ℚ)

/-- Floor of a rational as an integer. -/
def ratFloor (q : ℚ) : ℤ := q.num.fdiv q.den

/-- Truncation toward zero, the semantics of Python `int()` on a float. -/
def ratTrunc (q : ℚ) : ℤ := q.num.tdiv q.den

/-- Round a rational to the nearest integer, ties to even. -/
def rne (q : ℚ) : ℤ :=
  if q - (ratFloor q : ℚ) < 1 / 2 then ratFloor q
  else if (1 : ℚ) / 2 < q - (ratFloor q : ℚ) then ratFloor q + 1
  else if ratFloor q % 2 = 0 then ratFloor q else ratFloor q + 1

/-- Base-two logarithm of a natural number, by fuelled structural
recursion so that it evaluates inside the kernel. -/
def natLog2Aux : ℕ → ℕ → ℕ
  | 0, _ => 0
  | fuel + 1, n => if n < 2 then 0 else natLog2Aux fuel (n / 2) + 1

/-- Floor of the base-two logarithm (0 for 0). -/
def natLog2 (n : ℕ) : ℕ := natLog2Aux n n

/-- Floor of the base-two logarithm of a positive rational. -/
def qexp (q : ℚ) : ℤ :=
  if q < qpow2 ((natLog2 q.num.toNat : ℤ) - (natLog2 q.den : ℤ)) then
    (natLog2 q.num.toNat : ℤ) - (natLog2 q.den : ℤ) - 1
  else (natLog2 q.num.toNat : ℤ) - (natLog2 q.den : ℤ)

/-- Round a nonnegative rational to the nearest binary64 value
(53-bit significand, subnormals below 2^-1022). -/
def float64RoundPos (q : ℚ) : ℚ :=
  if q ≤ 0 then 0
  else if qexp q < -1022 then (rne (q * qpow2 1074) : ℚ) * qpow2 (-1074)
  else (rne (q * qpow2 (52 - qexp q)) : ℚ) * qpow2 (qexp q - 52)

/-- Round a rational to the nearest binary64 value. -/
def float64Round (q : ℚ) : ℚ :=
  if q < 0 then - float64RoundPos (-q) else float64RoundPos q

/-! ### The fitting arithmetic of `process_image` (lines 284-324) -/

/-- Line 284: `required_width = max(upper_width, lower_width)`. -/
def required_width (upper_width lower_width : ℤ) : ℤ := max upper_width lower_width

/-- Line 285: `required_height = upper_height + offset_px + lower_height`. -/
def required_height (upper_height offset_px lower_height : ℤ) : ℤ :=
  upper_height + offset_px + lower_height

/-- Lines 289-293: the two per-axis ratios and their maximum, the "cover"
scale factor.  `fl` is the float rounding applied to each division. -/
def scale_factor (fl : ℚ → ℚ) (original_width original_height rw rh : ℤ) : ℚ :=
  max (fl ((rw : ℚ) / (original_width : ℚ))) (fl ((rh : ℚ) / (original_height : ℚ)))

/-- Lines 295-296: `new_width = int(original_width * scale_factor)` and
likewise for the height — truncating `int()` conversion. -/
def scaled_size (fl : ℚ → ℚ) (original_width original_height : ℤ) (s : ℚ) : ℤ × ℤ :=
  (ratTrunc (fl ((original_width : ℚ) * s)), ratTrunc (fl ((original_height : ℚ) * s)))

/-- Lines 305-306: centering offset `max(0, (current - required) // 2)`,
with Python floor division. -/
def centering_offset (current required : ℤ) : ℤ := max 0 ((current - required).fdiv 2)

/-- Lines 311-314: the upper crop box `(left, top, right, bottom)`. -/
def upper_box (ho vo uw uh : ℤ) : ℤ × ℤ × ℤ × ℤ := (ho, vo, ho + uw, vo + uh)

/-- Lines 319-322: the lower crop box; same left offset, top shifted by
`upper_height + offset_px` below the centering offset. -/
def lower_box (ho vo uh off lw lh : ℤ) : ℤ × ℤ × ℤ × ℤ :=
  (ho, vo + uh + off, ho + lw, (vo + uh + off) + lh)

/-- Lines 295-302: the image the crops are taken from — resized to
`scaled_size` when `scale_factor != 1.0`, the original otherwise. -/
def resize_stage (fl : ℚ → ℚ) (K : ResampleKernel) (image : PImage) (rw rh : ℤ) :
    Option PImage :=
  if scale_factor fl image.width image.height rw rh ≠ 1 then
    resize K image
      (scaled_size fl image.width image.height
        (scale_factor fl image.width image.height rw rh)).1
      (scaled_size fl image.width image.height
        (scale_factor fl image.width image.height rw rh)).2
  else some image

/-- The dimensions of the image the crops are taken from, as a function
of the inputs alone. -/
def current_size (fl : ℚ → ℚ) (original_width original_height rw rh : ℤ) : ℤ × ℤ :=
  if scale_factor fl original_width original_height rw rh ≠ 1 then
    scaled_size fl original_width original_height
      (scale_factor fl original_width original_height rw rh)
  else (original_width, original_height)

/-- The successfully resized image (the value produced by `resize_stage`
when it does not fail). -/
def scaled_image (fl : ℚ → ℚ) (K : ResampleKernel) (image : PImage) (rw rh : ℤ) :
    PImage :=
  if scale_factor fl image.width image.height rw rh ≠ 1 then
    ⟨(scaled_size fl image.width image.height
        (scale_factor fl image.width image.height rw rh)).1,
      (scaled_size fl image.width image.height
        (scale_factor fl image.width image.height rw rh)).2,
      K image
        (scaled_size fl image.width image.height
          (scale_factor fl image.width image.height rw rh)).1
        (scaled_size fl image.width image.height
          (scale_factor fl image.width image.height rw rh)).2⟩
  else image

/-- Lines 310-336: crop the upper and the lower part and save both;
the first failing step aborts the whole operation. -/
def crop_stage (img2 : PImage) (uw uh lw lh off ho vo : ℤ) :
    Option (PImage × PImage) :=
  match crop img2 (upper_box ho vo uw uh) with
  | none => none
  | some upper_crop =>
    match crop img2 (lower_box ho vo uh off lw lh) with
    | none => none
    | some lower_crop =>
      match save_jpeg upper_crop with
      | none => none
      | some _ =>
        match save_jpeg lower_crop with
        | none => none
        | some _ => some (upper_crop, lower_crop)

/-- Lines 225-345, `process_image`: the whole fitting pipeline on the
decoded (colour-normalised) image.  A zero source dimension raises
`ZeroDivisionError` at lines 289-290; every exception is caught at
line 343 and yields the failure value `none` (Python `(None, None)`). -/
def process_image (fl : ℚ → ℚ) (K : ResampleKernel) (image : PImage)
    (upper_width upper_height lower_width lower_height offset_px : ℤ) :
    Option (PImage × PImage) :=
  if image.width = 0 ∨ image.height = 0 then none
  else
    match resize_stage fl K image (required_width upper_width lower_width)
        (required_height upper_height offset_px lower_height) with
    | none => none
    | some img2 =>
      crop_stage img2 upper_width upper_height lower_width lower_height offset_px
        (centering_offset img2.width (required_width upper_width lower_width))
        (centering_offset img2.height
          (required_height upper_height offset_px lower_height))

/-- Lines 484-491 of `main`: `apply_wallpaper` is invoked if and only if
`process_image` returned two paths; on `(None, None)` the cycle aborts
with exit code 1 and neither file is forwarded. -/
def main_applies (res : Option (PImage × PImage)) : Bool :=
  match res with
  | some _ => true
  | none => false

/-- The point region covered by a `(left, top, right, bottom)` crop box. -/
def boxRegion (box : ℤ × ℤ × ℤ × ℤ) : Set (ℤ × ℤ) :=
  {p | box.1 ≤ p.1 ∧ p.1 < box.2.2.1 ∧ box.2.1 ≤ p.2 ∧ p.2 < box.2.2.2}

/-- Whether every edge of both crop boxes lies inside the scaled image. -/
def crops_within_bounds (fl : ℚ → ℚ) (ow oh uw uh lw lh off : ℤ) : Bool :=
  decide (0 ≤ centering_offset (current_size fl ow oh (required_width uw lw)
      (required_height uh off lh)).1 (required_width uw lw)) &&
  decide (0 ≤ centering_offset (current_size fl ow oh (required_width uw lw)
      (required_height uh off lh)).2 (required_height uh off lh)) &&
  decide (0 ≤ (lower_box (centering_offset (current_size fl ow oh (required_width uw lw)
      (required_height uh off lh)).1 (required_width uw lw))
      (centering_offset (current_size fl ow oh (required_width uw lw)
        (required_height uh off lh)).2 (required_height uh off lh)) uh off lw lh).2.1) &&
  decide ((upper_box (centering_offset (current_size fl ow oh (required_width uw lw)
      (required_height uh off lh)).1 (required_width uw lw))
      (centering_offset (current_size fl ow oh (required_width uw lw)
        (required_height uh off lh)).2 (required_height uh off lh)) uw uh).2.2.1 ≤
    (current_size fl ow oh (required_width uw lw) (required_height uh off lh)).1) &&
  decide ((upper_box (centering_offset (current_size fl ow oh (required_width uw lw)
      (required_height uh off lh)).1 (required_width uw lw))
      (centering_offset (current_size fl ow oh (required_width uw lw)
        (required_height uh off lh)).2 (required_height uh off lh)) uw uh).2.2.2 ≤
    (current_size fl ow oh (required_width uw lw) (required_height uh off lh)).2) &&
  decide ((lower_box (centering_offset (current_size fl ow oh (required_width uw lw)
      (required_height uh off lh)).1 (required_width uw lw))
      (centering_offset (current_size fl ow oh (required_width uw lw)
        (required_height uh off lh)).2 (required_height uh off lh)) uh off lw lh).2.2.1 ≤
    (current_size fl ow oh (required_width uw lw) (required_height uh off lh)).1) &&
  decide ((lower_box (centering_offset (current_size fl ow oh (required_width uw lw)
      (required_height uh off lh)).1 (required_width uw lw))
      (centering_offset (current_size fl ow oh (required_width uw lw)
        (required_height uh off lh)).2 (required_height uh off lh)) uh off lw lh).2.2.2 ≤
    (current_size fl ow oh (required_width uw lw) (required_height uh off lh)).2)

/-- The horizontal centering offset of line 305, as a function of the
inputs alone. -/
def fit_ho (fl : ℚ → ℚ) (ow oh uw uh lw lh off : ℤ) : ℤ :=
  centering_offset
    (current_size fl ow oh (required_width uw lw) (required_height uh off lh)).1
    (required_width uw lw)

/-- The vertical centering offset of line 306, as a function of the
inputs alone. -/
def fit_vo (fl : ℚ → ℚ) (ow oh uw uh lw lh off : ℤ) : ℤ :=
  centering_offset
    (current_size fl ow oh (required_width uw lw) (required_height uh off lh)).2
    (required_height uh off lh)

/-! ### Concrete instances used by the closed theorems -/

/-- A constant resampling kernel, standing in for LANCZOS in concrete
evaluations. -/
def constK : ResampleKernel := fun _ _ _ _ _ => (5, 5, 5)

/-- A concrete 98 by 98 source image. -/
def img98 : PImage := ⟨98, 98, fun _ _ => (9, 9, 9)⟩

/-- A concrete 3840 by 2160 source image (the spec's boundary scenario). -/
def img3840 : PImage := ⟨3840, 2160, fun _ _ => (9, 9, 9)⟩

/-- A degenerate zero-sized image (a decode producing no pixels). -/
def img0 : PImage := ⟨0, 0, fun _ _ => blackPix⟩

/-! ### Helper lemmas -/

theorem qpow2_nonneg (e : ℤ) : 0 ≤ qpow2 e := by
  unfold qpow2
  split <;> positivity

theorem ratFloor_nonneg (q : ℚ) (h : 0 ≤ q) : 0 ≤ ratFloor q :=
  Int.fdiv_nonneg (Rat.num_nonneg.mpr h) (Int.ofNat_nonneg _)

theorem ratTrunc_nonneg (q : ℚ) (h : 0 ≤ q) : 0 ≤ ratTrunc q :=
  Int.tdiv_nonneg (Rat.num_nonneg.mpr h) (Int.ofNat_nonneg _)

theorem rne_nonneg (q : ℚ) (h : 0 ≤ q) : 0 ≤ rne q := by
  have h2 := ratFloor_nonneg q h
  unfold rne
  repeat' split
  all_goals omega

theorem float64RoundPos_nonneg (q : ℚ) : 0 ≤ float64RoundPos q := by
  unfold float64RoundPos
  split
  · exact le_refl 0
  · next hq =>
    push_neg at hq
    split <;>
      exact mul_nonneg
        (by exact_mod_cast rne_nonneg _ (mul_nonneg hq.le (qpow2_nonneg _)))
        (qpow2_nonneg _)

theorem float64Round_nonneg (q : ℚ) (h : 0 ≤ q) : 0 ≤ float64Round q := by
  unfold float64Round
  rw [if_neg (not_lt.mpr h)]
  exact float64RoundPos_nonneg q

theorem scale_factor_nonneg (fl : ℚ → ℚ) (w h rw rh : ℤ)
    (hw : 0 < w) (hrw : 0 ≤ rw) (hfl : ∀ q, 0 ≤ q → 0 ≤ fl q) :
    0 ≤ scale_factor fl w h rw rh := by
  unfold scale_factor
  refine le_trans (hfl _ ?_) (le_max_left _ _)
  exact div_nonneg (by exact_mod_cast hrw) (by exact_mod_cast hw.le)

theorem scaled_size_nonneg (fl : ℚ → ℚ) (w h : ℤ) (s : ℚ)
    (hw : 0 ≤ w) (hh : 0 ≤ h) (hs : 0 ≤ s) (hfl : ∀ q, 0 ≤ q → 0 ≤ fl q) :
    0 ≤ (scaled_size fl w h s).1 ∧ 0 ≤ (scaled_size fl w h s).2 := by
  unfold scaled_size
  exact ⟨ratTrunc_nonneg _ (hfl _ (mul_nonneg (by exact_mod_cast hw) hs)),
    ratTrunc_nonneg _ (hfl _ (mul_nonneg (by exact_mod_cast hh) hs))⟩

theorem crop_eq (img : PImage) (l t r b : ℤ) (h1 : l ≤ r) (h2 : t ≤ b) :
    crop img (l, t, r, b) = some (crop_total img l t r b) := by
  show (if r < l ∨ b < t then none else some (crop_total img l t r b)) = _
  rw [if_neg (by omega)]

theorem save_jpeg_eq (img : PImage) (h1 : 0 < img.width) (h2 : 0 < img.height) :
    save_jpeg img = some () := by
  unfold save_jpeg
  rw [if_neg (by omega)]

theorem scaled_image_width (fl : ℚ → ℚ) (K : ResampleKernel) (image : PImage)
    (rw rh : ℤ) :
    (scaled_image fl K image rw rh).width =
      (current_size fl image.width image.height rw rh).1 := by
  unfold scaled_image current_size
  by_cases hc : scale_factor fl image.width image.height rw rh ≠ 1
  · rw [if_pos hc, if_pos hc]
  · rw [if_neg hc, if_neg hc]

theorem scaled_image_height (fl : ℚ → ℚ) (K : ResampleKernel) (image : PImage)
    (rw rh : ℤ) :
    (scaled_image fl K image rw rh).height =
      (current_size fl image.width image.height rw rh).2 := by
  unfold scaled_image current_size
  by_cases hc : scale_factor fl image.width image.height rw rh ≠ 1
  · rw [if_pos hc, if_pos hc]
  · rw [if_neg hc, if_neg hc]

theorem resize_stage_eq (fl : ℚ → ℚ) (K : ResampleKernel) (image : PImage)
    (rw rh : ℤ) (hw : 0 < image.width) (hh : 0 < image.height) (hrw : 0 ≤ rw)
    (hfl : ∀ q, 0 ≤ q → 0 ≤ fl q) :
    resize_stage fl K image rw rh = some (scaled_image fl K image rw rh) := by
  have hs := scale_factor_nonneg fl image.width image.height rw rh hw hrw hfl
  have hns := scaled_size_nonneg fl image.width image.height
    (scale_factor fl image.width image.height rw rh) hw.le hh.le hs hfl
  unfold resize_stage scaled_image
  by_cases hc : scale_factor fl image.width image.height rw rh ≠ 1
  · rw [if_pos hc, if_pos hc]
    unfold resize
    rw [if_neg (by push_neg; exact ⟨hns.1, hns.2⟩)]
  · rw [if_neg hc, if_neg hc]

theorem crop_stage_eq (img2 : PImage) (uw uh lw lh off ho vo : ℤ)
    (huw : 0 < uw) (huh : 0 < uh) (hlw : 0 < lw) (hlh : 0 < lh) :
    crop_stage img2 uw uh lw lh off ho vo =
      some (crop_total img2 ho vo (ho + uw) (vo + uh),
        crop_total img2 ho (vo + uh + off) (ho + lw) ((vo + uh + off) + lh)) := by
  have e1 := crop_eq img2 ho vo (ho + uw) (vo + uh) (by omega) (by omega)
  have e2 := crop_eq img2 ho (vo + uh + off) (ho + lw) ((vo + uh + off) + lh)
    (by omega) (by omega)
  have s1 := save_jpeg_eq (crop_total img2 ho vo (ho + uw) (vo + uh))
    (by show (0:ℤ) < ho + uw - ho; omega) (by show (0:ℤ) < vo + uh - vo; omega)
  have s2 := save_jpeg_eq (crop_total img2 ho (vo + uh + off) (ho + lw) ((vo + uh + off) + lh))
    (by show (0:ℤ) < ho + lw - ho; omega)
    (by show (0:ℤ) < (vo + uh + off) + lh - (vo + uh + off); omega)
  unfold crop_stage
  simp only [upper_box, lower_box, e1, e2, s1, s2]

theorem crop_stage_none (img2 : PImage) (uw uh lw lh off ho vo : ℤ)
    (h : uw ≤ 0 ∨ uh ≤ 0 ∨ lw ≤ 0 ∨ lh ≤ 0) :
    crop_stage img2 uw uh lw lh off ho vo = none := by
  unfold crop_stage
  by_cases h1 : uw < 0 ∨ uh < 0
  · have e1 : crop img2 (upper_box ho vo uw uh) = none := by
      show (if ho + uw < ho ∨ vo + uh < vo then none else _) = none
      rw [if_pos (by omega)]
    simp only [e1]
  · push_neg at h1
    have e1 := crop_eq img2 ho vo (ho + uw) (vo + uh) (by omega) (by omega)
    by_cases h2 : lw < 0 ∨ lh < 0
    · have e2 : crop img2 (lower_box ho vo uh off lw lh) = none := by
        show (if ho + lw < ho ∨ (vo + uh + off) + lh < vo + uh + off then none else _) = none
        rw [if_pos (by omega)]
      simp only [upper_box, e1, e2]
    · push_neg at h2
      have e2 := crop_eq img2 ho (vo + uh + off) (ho + lw) ((vo + uh + off) + lh)
        (by omega) (by omega)
      rcases (by omega : uw = 0 ∨ uh = 0 ∨ lw = 0 ∨ lh = 0) with h3 | h3 | h3 | h3
      · have s1 : save_jpeg (crop_total img2 ho vo (ho + uw) (vo + uh)) = none := by
          unfold save_jpeg
          rw [if_pos (Or.inl (by show ho + uw - ho ≤ (0:ℤ); omega))]
        simp only [upper_box, lower_box, e1, e2, s1]
      · have s1 : save_jpeg (crop_total img2 ho vo (ho + uw) (vo + uh)) = none := by
          unfold save_jpeg
          rw [if_pos (Or.inr (by show vo + uh - vo ≤ (0:ℤ); omega))]
        simp only [upper_box, lower_box, e1, e2, s1]
      · have s2 : save_jpeg (crop_total img2 ho (vo + uh + off) (ho + lw)
            ((vo + uh + off) + lh)) = none := by
          unfold save_jpeg
          rw [if_pos (Or.inl (by show ho + lw - ho ≤ (0:ℤ); omega))]
        simp only [upper_box, lower_box, e1, e2, s2]
        cases save_jpeg (crop_total img2 ho vo (ho + uw) (vo + uh)) <;> rfl
      · have s2 : save_jpeg (crop_total img2 ho (vo + uh + off) (ho + lw)
            ((vo + uh + off) + lh)) = none := by
          unfold save_jpeg
          rw [if_pos (Or.inr (by show (vo + uh + off) + lh - (vo + uh + off) ≤ (0:ℤ); omega))]
        simp only [upper_box, lower_box, e1, e2, s2]
        cases save_jpeg (crop_total img2 ho vo (ho + uw) (vo + uh)) <;> rfl

theorem process_image_success (fl : ℚ → ℚ) (K : ResampleKernel) (image : PImage)
    (uw uh lw lh off : ℤ) (hw : 0 < image.width) (hh : 0 < image.height)
    (huw : 0 < uw) (huh : 0 < uh) (hlw : 0 < lw) (hlh : 0 < lh)
    (hfl : ∀ q, 0 ≤ q → 0 ≤ fl q) :
    process_image fl K image uw uh lw lh off =
      some (crop_total
          (scaled_image fl K image (required_width uw lw) (required_height uh off lh))
          (fit_ho fl image.width image.height uw uh lw lh off)
          (fit_vo fl image.width image.height uw uh lw lh off)
          (fit_ho fl image.width image.height uw uh lw lh off + uw)
          (fit_vo fl image.width image.height uw uh lw lh off + uh),
        crop_total
          (scaled_image fl K image (required_width uw lw) (required_height uh off lh))
          (fit_ho fl image.width image.height uw uh lw lh off)
          (fit_vo fl image.width image.height uw uh lw lh off + uh + off)
          (fit_ho fl image.width image.height uw uh lw lh off + lw)
          ((fit_vo fl image.width image.height uw uh lw lh off + uh + off) + lh)) := by
  unfold process_image
  rw [if_neg (by omega)]
  rw [resize_stage_eq fl K image (required_width uw lw) (required_height uh off lh)
    hw hh (by unfold required_width; omega) hfl]
  show crop_stage _ uw uh lw lh off _ _ = _
  rw [crop_stage_eq _ uw uh lw lh off _ _ huw huh hlw hlh,
    scaled_image_width fl K image (required_width uw lw) (required_height uh off lh),
    scaled_image_height fl K image (required_width uw lw) (required_height uh off lh)]
  rfl

theorem crop_total_width (img : PImage) (l t r b : ℤ) :
    (crop_total img l t r b).width = r - l := rfl

theorem crop_total_height (img : PImage) (l t r b : ℤ) :
    (crop_total img l t r b).height = b - t := rfl

theorem crop_total_pixel (img : PImage) (l t r b x y : ℤ) :
    (crop_total img l t r b).pixel x y =
      if 0 ≤ l + x ∧ l + x < img.width ∧ 0 ≤ t + y ∧ t + y < img.height then
        img.pixel (l + x) (t + y)
      else blackPix := rfl

/-! ### Claims -/

/-- C1: for a source image with positive width and height, positive
rectangle dimensions and non-negative gap, `process_image` computes
`required_width = max(Wu, Wl)`, `required_height = Hu + G + Hl`, and a
scale factor equal to `max(required_width / source_width,
required_height / source_height)` — the smallest uniform scale under
which both scaled dimensions are at least the required footprint
(cover-fit, never letterbox).  Stated under exact real arithmetic
(`fl := id`). -/
theorem scale_factor_cover_minimal (sw sh uw uh lw lh off : ℤ)
    (hsw : 0 < sw) (hsh : 0 < sh) (huw : 0 < uw) (huh : 0 < uh)
    (hlw : 0 < lw) (hlh : 0 < lh) (hoff : 0 ≤ off) :
    required_width uw lw = max uw lw ∧
    required_height uh off lh = uh + off + lh ∧
    scale_factor id sw sh (required_width uw lw) (required_height uh off lh) =
      max ((required_width uw lw : ℚ) / (sw : ℚ))
        ((required_height uh off lh : ℚ) / (sh : ℚ)) ∧
    ∀ t : ℚ,
      ((required_width uw lw : ℚ) ≤ t * (sw : ℚ) ∧
        (required_height uh off lh : ℚ) ≤ t * (sh : ℚ)) ↔
      scale_factor id sw sh (required_width uw lw) (required_height uh off lh) ≤ t := by
  refine ⟨rfl, rfl, rfl, fun t => ?_⟩
  unfold scale_factor
  simp only [id_eq]
  rw [max_le_iff, div_le_iff (by exact_mod_cast hsw : (0:ℚ) < (sw : ℚ)),
    div_le_iff (by exact_mod_cast hsh : (0:ℚ) < (sh : ℚ))]

theorem scale_factor_cover_minimal_witness :
    required_width 1920 1920 = max 1920 1920 ∧
    required_height 1080 100 515 = 1080 + 100 + 515 ∧
    scale_factor id 3840 2160 (required_width 1920 1920) (required_height 1080 100 515) =
      max ((required_width 1920 1920 : ℚ) / ((3840 : ℤ) : ℚ))
        ((required_height 1080 100 515 : ℚ) / ((2160 : ℤ) : ℚ)) ∧
    ∀ t : ℚ,
      ((required_width 1920 1920 : ℚ) ≤ t * ((3840 : ℤ) : ℚ) ∧
        (required_height 1080 100 515 : ℚ) ≤ t * ((2160 : ℤ) : ℚ)) ↔
      scale_factor id 3840 2160 (required_width 1920 1920)
        (required_height 1080 100 515) ≤ t :=
  scale_factor_cover_minimal 3840 2160 1920 1080 1920 515 100 (by decide) (by decide)
    (by decide) (by decide) (by decide) (by decide) (by decide)

/-- C2: with positive dimensions, if the source covers the required
footprint in both axes the scale factor is at most 1 and both crops have
exactly the requested dimensions; if the source is smaller in either
axis the scale factor is strictly greater than 1, resampling occurs
(`scale_factor ≠ 1`, the resize branch of line 298), and the crops still
succeed with exact dimensions.  Stated under exact real arithmetic. -/
theorem cover_scale_bounds_and_crop_dims (K : ResampleKernel) (image : PImage)
    (uw uh lw lh off : ℤ) (hw : 0 < image.width) (hh : 0 < image.height)
    (huw : 0 < uw) (huh : 0 < uh) (hlw : 0 < lw) (hlh : 0 < lh) :
    (required_width uw lw ≤ image.width ∧ required_height uh off lh ≤ image.height →
      scale_factor id image.width image.height (required_width uw lw)
        (required_height uh off lh) ≤ 1) ∧
    (image.width < required_width uw lw ∨ image.height < required_height uh off lh →
      1 < scale_factor id image.width image.height (required_width uw lw)
          (required_height uh off lh) ∧
      scale_factor id image.width image.height (required_width uw lw)
          (required_height uh off lh) ≠ 1) ∧
    ∃ u l, process_image id K image uw uh lw lh off = some (u, l) ∧
      u.width = uw ∧ u.height = uh ∧ l.width = lw ∧ l.height = lh := by
  refine ⟨?_, ?_, ?_⟩
  · rintro ⟨hx, hy⟩
    unfold scale_factor
    simp only [id_eq]
    apply max_le
    · rw [div_le_one (by exact_mod_cast hw : (0:ℚ) < (image.width : ℚ))]
      exact_mod_cast hx
    · rw [div_le_one (by exact_mod_cast hh : (0:ℚ) < (image.height : ℚ))]
      exact_mod_cast hy
  · intro hlt
    have h1 : 1 < scale_factor id image.width image.height (required_width uw lw)
        (required_height uh off lh) := by
      unfold scale_factor
      simp only [id_eq]
      rcases hlt with hx | hy
      · exact lt_of_lt_of_le
          ((one_lt_div (by exact_mod_cast hw : (0:ℚ) < (image.width : ℚ))).mpr
            (by exact_mod_cast hx)) (le_max_left _ _)
      · exact lt_of_lt_of_le
          ((one_lt_div (by exact_mod_cast hh : (0:ℚ) < (image.height : ℚ))).mpr
            (by exact_mod_cast hy)) (le_max_right _ _)
    exact ⟨h1, ne_of_gt h1⟩
  · refine ⟨_, _, process_image_success id K image uw uh lw lh off hw hh huw huh hlw hlh
      (fun q h => h), ?_, ?_, ?_, ?_⟩
    · rw [crop_total_width]; omega
    · rw [crop_total_height]; omega
    · rw [crop_total_width]; omega
    · rw [crop_total_height]; omega

theorem cover_scale_bounds_and_crop_dims_witness :
    (required_width 1920 1920 ≤ img3840.width ∧
        required_height 1080 100 515 ≤ img3840.height →
      scale_factor id img3840.width img3840.height (required_width 1920 1920)
        (required_height 1080 100 515) ≤ 1) ∧
    (img3840.width < required_width 1920 1920 ∨
        img3840.height < required_height 1080 100 515 →
      1 < scale_factor id img3840.width img3840.height (required_width 1920 1920)
          (required_height 1080 100 515) ∧
      scale_factor id img3840.width img3840.height (required_width 1920 1920)
          (required_height 1080 100 515) ≠ 1) ∧
    ∃ u l, process_image id constK img3840 1920 1080 1920 515 100 = some (u, l) ∧
      u.width = 1920 ∧ u.height = 1080 ∧ l.width = 1920 ∧ l.height = 515 :=
  cover_scale_bounds_and_crop_dims constK img3840 1920 1080 1920 515 100 (by decide)
    (by decide) (by decide) (by decide) (by decide) (by decide)

/-- C3 counterexample: at the valid input source 98x98, upper (1,1),
lower (1,1), gap 0, under binary64 arithmetic the scaled image is 1x1
while the lower crop box reaches down to row 2 — a crop edge lies
outside the scaled image — yet `process_image` succeeds instead of
failing with any error: the claimed CropOutOfBounds rejection does not
exist in the code. -/
theorem crop_out_of_bounds_rejection_cx :
    crops_within_bounds float64Round 98 98 1 1 1 1 0 = false ∧
    (process_image float64Round constK img98 1 1 1 1 0).isSome = true := by
  constructor
  · with_unfolding_all rfl
  · with_unfolding_all rfl

/-- C3 amended: `process_image` performs no bounds check at all: even
when a computed crop edge lies outside the scaled image, the operation
succeeds (PIL pads the missing area with black) and both crops have
exactly the requested dimensions. -/
theorem no_crop_out_of_bounds_rejection (fl : ℚ → ℚ) (K : ResampleKernel)
    (image : PImage) (uw uh lw lh off : ℤ)
    (hw : 0 < image.width) (hh : 0 < image.height)
    (huw : 0 < uw) (huh : 0 < uh) (hlw : 0 < lw) (hlh : 0 < lh)
    (hfl : ∀ q, 0 ≤ q → 0 ≤ fl q)
    (hoob : crops_within_bounds fl image.width image.height uw uh lw lh off = false) :
    ∃ u l, process_image fl K image uw uh lw lh off = some (u, l) ∧
      u.width = uw ∧ u.height = uh ∧ l.width = lw ∧ l.height = lh := by
  refine ⟨_, _, process_image_success fl K image uw uh lw lh off hw hh huw huh hlw hlh
    hfl, ?_, ?_, ?_, ?_⟩
  · rw [crop_total_width]; omega
  · rw [crop_total_height]; omega
  · rw [crop_total_width]; omega
  · rw [crop_total_height]; omega

theorem no_crop_out_of_bounds_rejection_witness :
    ∃ u l, process_image float64Round constK img98 1 1 1 1 0 = some (u, l) ∧
      u.width = 1 ∧ u.height = 1 ∧ l.width = 1 ∧ l.height = 1 :=
  no_crop_out_of_bounds_rejection float64Round constK img98 1 1 1 1 0 (by decide)
    (by decide) (by decide) (by decide) (by decide) (by decide) float64Round_nonneg
    (by with_unfolding_all rfl)

/-- C4 counterexample: in the boundary scenario (source 3840x2160,
upper (1920,1080), lower (1920,515), gap 100), under the binary64
arithmetic the code actually performs, the horizontal centering offset
is 546, not the 547 the claim states. -/
theorem boundary_scenario_cx :
    fit_ho float64Round 3840 2160 1920 1080 1920 515 100 = 546 ∧
    fit_ho float64Round 3840 2160 1920 1080 1920 515 100 ≠ 547 := by
  constructor
  · with_unfolding_all rfl
  · with_unfolding_all decide

/-- C4 amended: the scaled dimensions are the truncating
`int(source * scale)` of lines 295-296, not `round(...)`; in the
boundary scenario the scale is the binary64 rounding of 1695/2160, the
scaled image is 3013x1695 (`int(3840 * 0.78472...) = 3013`), the
centering offsets are (546, 0), the upper crop box is
(546,0)-(2466,1080), the lower crop box is (546,1180)-(2466,1695), and
both saved crops have dimensions (1920,1080) and (1920,515). -/
theorem boundary_scenario_eval :
    required_width 1920 1920 = 1920 ∧
    required_height 1080 100 515 = 1695 ∧
    scale_factor float64Round 3840 2160 1920 1695 = float64Round (1695 / 2160) ∧
    scaled_size float64Round 3840 2160 (scale_factor float64Round 3840 2160 1920 1695) =
      (3013, 1695) ∧
    current_size float64Round 3840 2160 1920 1695 = (3013, 1695) ∧
    fit_ho float64Round 3840 2160 1920 1080 1920 515 100 = 546 ∧
    fit_vo float64Round 3840 2160 1920 1080 1920 515 100 = 0 ∧
    upper_box 546 0 1920 1080 = (546, 0, 2466, 1080) ∧
    lower_box 546 0 1080 100 1920 515 = (546, 1180, 2466, 1695) ∧
    (process_image float64Round constK img3840 1920 1080 1920 515 100).map
      (fun pr => ((pr.1.width, pr.1.height), (pr.2.width, pr.2.height))) =
      some ((1920, 1080), (1920, 515)) := by
  refine ⟨rfl, rfl, ?_, ?_, ?_, ?_, ?_, rfl, rfl, ?_⟩
  all_goals with_unfolding_all rfl

/-- C5: the centering offsets are `max(0, (current - required) // 2)`
with deterministic integer floor division, and when the scaled image
exactly equals the required footprint the offset is 0 (in particular
both offsets are 0 when both axes match exactly). -/
theorem centering_offset_spec (current required : ℤ) :
    centering_offset current required = max 0 ((current - required).fdiv 2) ∧
    (current = required → centering_offset current required = 0) := by
  refine ⟨rfl, fun h => ?_⟩
  subst h
  unfold centering_offset
  norm_num

theorem centering_offset_spec_witness : centering_offset 1695 1695 = 0 :=
  (centering_offset_spec 1695 1695).2 rfl

/-- C6: both crop boxes share the same left offset, the upper crop's
top is the vertical centering offset while the lower crop's top is that
offset shifted by `Hu + G` (cumulative, not independently centred), and
for every non-negative gap the two crop regions are disjoint. -/
theorem crop_boxes_alignment_disjoint (ho vo uw uh lw lh off : ℤ) :
    (upper_box ho vo uw uh).1 = (lower_box ho vo uh off lw lh).1 ∧
    (upper_box ho vo uw uh).2.1 = vo ∧
    (lower_box ho vo uh off lw lh).2.1 = vo + uh + off ∧
    (0 ≤ off → ∀ p : ℤ × ℤ, p ∈ boxRegion (upper_box ho vo uw uh) →
      p ∉ boxRegion (lower_box ho vo uh off lw lh)) := by
  refine ⟨rfl, rfl, rfl, fun hoff p hp hq => ?_⟩
  simp only [boxRegion, upper_box, lower_box, Set.mem_setOf_eq] at hp hq
  omega

theorem crop_boxes_alignment_disjoint_witness :
    (0:ℤ) ≤ 100 ∧
    ∀ p : ℤ × ℤ, p ∈ boxRegion (upper_box 546 0 1920 1080) →
      p ∉ boxRegion (lower_box 546 0 1080 100 1920 515) :=
  ⟨by decide,
    (crop_boxes_alignment_disjoint 546 0 1920 1080 1920 515 100).2.2.2 (by decide)⟩

/-- C7 counterexample: a negative gap is not rejected.  With source
3840x2160, upper (1920,1080), lower (1920,515) and gap -1 the pipeline
succeeds (returns two paths) instead of failing with any error, so the
claim that a negative gap yields an InvalidDimension failure is false;
the code performs no input validation. -/
theorem negative_gap_accepted_cx :
    ((-1 : ℤ) < 0) ∧
    (process_image float64Round constK img3840 1920 1080 1920 515 (-1)).isSome = true := by
  constructor
  · decide
  · with_unfolding_all rfl

/-- C7 amended: a non-positive rectangle dimension, or a zero source
dimension, makes `process_image` fail (return `(None, None)`) through
the downstream PIL exceptions (ZeroDivisionError for a zero source
axis, crop or JPEG-save errors for degenerate rectangles); the gap is
not validated at all. -/
theorem nonpositive_dims_fail (fl : ℚ → ℚ) (K : ResampleKernel) (image : PImage)
    (uw uh lw lh off : ℤ) (hw : 0 ≤ image.width) (hh : 0 ≤ image.height)
    (hbad : uw ≤ 0 ∨ uh ≤ 0 ∨ lw ≤ 0 ∨ lh ≤ 0 ∨ image.width = 0 ∨ image.height = 0) :
    process_image fl K image uw uh lw lh off = none := by
  unfold process_image
  by_cases h0 : image.width = 0 ∨ image.height = 0
  · rw [if_pos h0]
  · rw [if_neg h0]
    have hrect : uw ≤ 0 ∨ uh ≤ 0 ∨ lw ≤ 0 ∨ lh ≤ 0 := by
      rcases hbad with h | h | h | h | h | h
      · exact Or.inl h
      · exact Or.inr (Or.inl h)
      · exact Or.inr (Or.inr (Or.inl h))
      · exact Or.inr (Or.inr (Or.inr h))
      · exact absurd (Or.inl h) h0
      · exact absurd (Or.inr h) h0
    cases hres : resize_stage fl K image (required_width uw lw)
        (required_height uh off lh) with
    | none => rfl
    | some img2 => exact crop_stage_none img2 uw uh lw lh off _ _ hrect

theorem nonpositive_dims_fail_witness :
    process_image id constK img3840 0 1080 1920 515 100 = none :=
  nonpositive_dims_fail id constK img3840 0 1080 1920 515 100 (by decide) (by decide)
    (Or.inl (by decide))

/-- C8: every failure of the fitting pipeline surfaces as the value
`(None, None)` of `process_image` (the `Option` result `none` here),
and the caller `main` (lines 484-491) then aborts the cycle and does
not invoke the wallpaper-applying collaborator on either file. -/
theorem failure_not_forwarded (fl : ℚ → ℚ) (K : ResampleKernel) (image : PImage)
    (uw uh lw lh off : ℤ)
    (hfail : process_image fl K image uw uh lw lh off = none) :
    main_applies (process_image fl K image uw uh lw lh off) = false := by
  rw [hfail]
  rfl

theorem failure_not_forwarded_witness :
    main_applies (process_image id constK img0 1920 1080 1920 515 100) = false :=
  failure_not_forwarded id constK img0 1920 1080 1920 515 100 rfl

/-- C9: `process_image` is deterministic — the model is a pure function
of the decoded source image, the rectangle and gap parameters, the
fixed rounding of float arithmetic and the fixed resampling kernel, so
two runs on identical inputs produce pixel-identical crop outputs. -/
theorem process_image_deterministic (fl : ℚ → ℚ) (K : ResampleKernel)
    (image image2 : PImage) (uw uh lw lh off uw2 uh2 lw2 lh2 off2 : ℤ)
    (himg : image = image2) (h1 : uw = uw2) (h2 : uh = uh2) (h3 : lw = lw2)
    (h4 : lh = lh2) (h5 : off = off2) :
    process_image fl K image uw uh lw lh off =
      process_image fl K image2 uw2 uh2 lw2 lh2 off2 := by
  subst himg h1 h2 h3 h4 h5
  rfl

theorem process_image_deterministic_witness :
    process_image id constK img3840 1920 1080 1920 515 100 =
      process_image id constK img3840 1920 1080 1920 515 100 :=
  process_image_deterministic id constK img3840 img3840 1920 1080 1920 515 100
    1920 1080 1920 515 100 rfl rfl rfl rfl rfl rfl

/-- C10: crop extraction is total: for positive inputs the pipeline
always returns crops of exactly the requested dimensions, with every
pixel whose source coordinate falls outside the scaled image filled
with black; and because lines 295-296 truncate with `int()`, the scaled
image can fall short of the required footprint by one pixel, concretely
at source 98x98, upper (1,1), lower (1,1), gap 0 under binary64
arithmetic, where no error is raised and the out-of-bounds row of the
lower crop reads back black. -/
theorem crop_totality_black_fill_and_shortfall :
    (∀ (fl : ℚ → ℚ) (K : ResampleKernel) (image : PImage) (uw uh lw lh off : ℤ),
      0 < image.width → 0 < image.height → 0 < uw → 0 < uh → 0 < lw → 0 < lh →
      (∀ q, 0 ≤ q → 0 ≤ fl q) →
      ∃ u l, process_image fl K image uw uh lw lh off = some (u, l) ∧
        u.width = uw ∧ u.height = uh ∧ l.width = lw ∧ l.height = lh ∧
        (∀ x y : ℤ,
          ¬(0 ≤ fit_ho fl image.width image.height uw uh lw lh off + x ∧
            fit_ho fl image.width image.height uw uh lw lh off + x <
              (current_size fl image.width image.height (required_width uw lw)
                (required_height uh off lh)).1 ∧
            0 ≤ fit_vo fl image.width image.height uw uh lw lh off + y ∧
            fit_vo fl image.width image.height uw uh lw lh off + y <
              (current_size fl image.width image.height (required_width uw lw)
                (required_height uh off lh)).2) →
          u.pixel x y = blackPix) ∧
        (∀ x y : ℤ,
          ¬(0 ≤ fit_ho fl image.width image.height uw uh lw lh off + x ∧
            fit_ho fl image.width image.height uw uh lw lh off + x <
              (current_size fl image.width image.height (required_width uw lw)
                (required_height uh off lh)).1 ∧
            0 ≤ fit_vo fl image.width image.height uw uh lw lh off + uh + off + y ∧
            fit_vo fl image.width image.height uw uh lw lh off + uh + off + y <
              (current_size fl image.width image.height (required_width uw lw)
                (required_height uh off lh)).2) →
          l.pixel x y = blackPix)) ∧
    ((current_size float64Round 98 98 (required_width 1 1) (required_height 1 0 1)).2 + 1 =
        required_height 1 0 1 ∧
      (process_image float64Round constK img98 1 1 1 1 0).map
        (fun pr => ((pr.1.width, pr.1.height), (pr.2.width, pr.2.height), pr.2.pixel 0 0)) =
        some ((1, 1), (1, 1), blackPix)) := by
  constructor
  · intro fl K image uw uh lw lh off hw hh huw huh hlw hlh hfl
    refine ⟨_, _, process_image_success fl K image uw uh lw lh off hw hh huw huh hlw hlh
      hfl, ?_, ?_, ?_, ?_, ?_, ?_⟩
    · rw [crop_total_width]; omega
    · rw [crop_total_height]; omega
    · rw [crop_total_width]; omega
    · rw [crop_total_height]; omega
    · intro x y hnb
      rw [crop_total_pixel, scaled_image_width, scaled_image_height, if_neg hnb]
    · intro x y hnb
      rw [crop_total_pixel, scaled_image_width, scaled_image_height, if_neg hnb]
  · constructor
    · with_unfolding_all rfl
    · with_unfolding_all rfl

theorem crop_totality_black_fill_and_shortfall_witness :
    ∃ u l, process_image id constK img98 1 1 1 1 0 = some (u, l) ∧
      u.width = 1 ∧ u.height = 1 ∧ l.width = 1 ∧ l.height = 1 ∧
      (∀ x y : ℤ,
        ¬(0 ≤ fit_ho id img98.width img98.height 1 1 1 1 0 + x ∧
          fit_ho id img98.width img98.height 1 1 1 1 0 + x <
            (current_size id img98.width img98.height (required_width 1 1)
              (required_height 1 0 1)).1 ∧
          0 ≤ fit_vo id img98.width img98.height 1 1 1 1 0 + y ∧
          fit_vo id img98.width img98.height 1 1 1 1 0 + y <
            (current_size id img98.width img98.height (required_width 1 1)
              (required_height 1 0 1)).2) →
        u.pixel x y = blackPix) ∧
      (∀ x y : ℤ,
        ¬(0 ≤ fit_ho id img98.width img98.height 1 1 1 1 0 + x ∧
          fit_ho id img98.width img98.height 1 1 1 1 0 + x <
            (current_size id img98.width img98.height (required_width 1 1)
              (required_height 1 0 1)).1 ∧
          0 ≤ fit_vo id img98.width img98.height 1 1 1 1 0 + 1 + 0 + y ∧
          fit_vo id img98.width img98.height 1 1 1 1 0 + 1 + 0 + y <
            (current_size id img98.width img98.height (required_width 1 1)
              (required_height 1 0 1)).2) →
        l.pixel x y = blackPix) :=
  crop_totality_black_fill_and_shortfall.1 id constK img98 1 1 1 1 0 (by decide)
    (by decide) (by decide) (by decide) (by decide) (by decide) (fun q h => h)
